import Mathlib

set_option maxRecDepth 10000

/-!
Verification of the photo_critique application (src/app.py) against its
specification. The single source file is a Streamlit app: startup credential
check (lines 12-21), `get_gemini_response` (lines 30-45), `get_image_content`
(lines 47-68), the language selector (lines 80-89), the upload widget
(line 92), and the submit handler (lines 102-134). The embedding below is a
direct translation: exceptions become `Except`, the remote Gemini endpoint
becomes an explicit function argument, and the calls made to it are returned
as an explicit trace so that call-count properties can be stated.
-/

namespace PhotoCritique

/-- The four options of the language selector (src/app.py line 88). -/
inductive Language where
  | english
  | spanish
  | french
  | german
deriving DecidableEq, Repr

/-- The display name of each selector option (the keys of
`supported_languages`, src/app.py lines 82-87). -/
def Language.name : Language → String
  | .english => "English"
  | .spanish => "Spanish"
  | .french => "French"
  | .german => "German"

/-- The `supported_languages` dictionary (src/app.py lines 82-87): maps each
selector option to its language code; `language_code` (line 89) is this map
applied to the selection. -/
def supportedLanguages : Language → String
  | .english => "en"
  | .spanish => "es"
  | .french => "fr"
  | .german => "de"

/-- A present upload as seen by the code: `uploaded_file.type` (the declared
MIME type) and `uploaded_file.getvalue()` (the raw bytes, modelled as a list
of byte values). -/
structure UploadedFile where
  type : String
  data : List Nat
deriving DecidableEq, Repr

/-- One element of the list built by `get_image_content` (src/app.py
lines 62-65): a dict with keys `mime_type` and `data`. -/
structure ImagePart where
  mime_type : String
  data : List Nat
deriving DecidableEq, Repr

/-- Python exceptions relevant to the handler: `FileNotFoundError` (caught at
src/app.py line 129) and every other exception (caught at line 132). Each
carries its message (`str(e)`). -/
inductive PyExc where
  | fileNotFound (msg : String)
  | other (msg : String)
deriving DecidableEq, Repr

/-- One element of the list passed to `model.generate_content` (src/app.py
line 44): either a text part (a string) or an image part. -/
inductive GenPart where
  | text (s : String)
  | image (p : ImagePart)
deriving DecidableEq, Repr

/-- The remote model endpoint (`model.generate_content` followed by
`.text`): given the request parts it either returns the response text or
throws an exception. -/
def Endpoint : Type := List GenPart → Except PyExc String

/-- `get_image_content` (src/app.py lines 47-68): on a present upload,
returns the one-element list `[{mime_type, data}]` with the declared MIME
type and the raw bytes; on an absent upload raises
`FileNotFoundError("File not uploaded")`. -/
def get_image_content : Option UploadedFile → Except PyExc (List ImagePart)
  | some f => .ok [⟨f.type, f.data⟩]
  | none => .error (.fileNotFound "File not uploaded")

/-- The `localized_prompt` f-string of `get_gemini_response` (src/app.py
line 43). -/
def localized_prompt (input_prompt language : String) : String :=
  "Language: " ++ language ++ "\n\n" ++ input_prompt

/-- `get_gemini_response` (src/app.py lines 30-45): builds the localized
prompt, calls the endpoint once with `[localized_prompt, image[0]]`, and
returns `response.text`. The second component is the trace of endpoint calls
made (empty when `image[0]` raises `IndexError` before the call). -/
def get_gemini_response (endpoint : Endpoint) (input_prompt : String)
    (image : List ImagePart) (language : String) :
    Except PyExc String × List (List GenPart) :=
  match image with
  | [] => (.error (.other "list index out of range"), [])
  | p :: _ =>
      let req : List GenPart := [.text (localized_prompt input_prompt language), .image p]
      (endpoint req, [req])

/-- The `input_prompt` critique template (src/app.py lines 108-121), with
Python's escape processing applied: the template is a triple-quoted string
whose explicit escapes and literal line breaks both become newlines. -/
def input_prompt : String :=
  "\n        Provide a constructive and detailed photographic critique, offering specific feedback and suggestions for improvement on the following aspects:\n\n\n        - Composition: Analyze ...\n\n        - Lighting: Evaluate ...\n\n        - Focus and Sharpness: Assess ...\n\n        - Exposure: Determine ...\n\n        - Color Balance: Examine ...\n\n        - Creativity and Impact: Consider ...\n\n\n        Begin your critique with a positive two-sentence summary ...\n\n\n        Structure your detailed feedback into two distinct sections:\n\n\n        **Positive Critique:** ...\n\n\n        **Recommended Optimizations:** ...\n\n\n        Conclude your critique with an overall rating of the photo on a scale of 1 to 10, where 10 represents the highest possible score.\n        "

/-- What the submit handler displays: the critique (st.subheader and
st.write, lines 127-128), the `FileNotFoundError` message (`st.error(str(e))`,
line 131), or the generic message for any other exception
(`st.error(f"An error occurred: \x7be\x7d")`, line 134). -/
inductive Outcome where
  | critique (text : String)
  | fileError (msg : String)
  | genericError (msg : String)
deriving DecidableEq, Repr

/-- The two `except` clauses of the submit handler (src/app.py
lines 129-134). -/
def handleException : PyExc → Outcome
  | .fileNotFound m => .fileError m
  | .other m => .genericError ("An error occurred: " ++ m)

/-- The submit-button handler (src/app.py lines 102-134): runs
`get_image_content`, then `get_gemini_response` on the fixed template with
the selected `language_code`, displays the response, and maps any raised
exception through the two `except` clauses. The second component is the
trace of endpoint calls made during the submission. -/
def handleSubmit (endpoint : Endpoint) (uploaded_file : Option UploadedFile)
    (language_code : String) : Outcome × List (List GenPart) :=
  match get_image_content uploaded_file with
  | .error e => (handleException e, [])
  | .ok image_data =>
      let r := get_gemini_response endpoint input_prompt image_data language_code
      match r.1 with
      | .ok text => (.critique text, r.2)
      | .error e => (handleException e, r.2)

/-- Result of the startup section: either the interface is halted by
`st.stop()` after `st.error(msg)`, or the SDK is configured with the key. -/
inductive StartupResult where
  | halted (msg : String)
  | configured (api_key : String)
deriving DecidableEq, Repr

/-- The startup credential check (src/app.py lines 12-21): a missing
`API_KEY` secret raises `KeyError`, caught to show the second message and
stop; an empty value shows the first message and stops; otherwise
`genai.configure` runs with the key. -/
def startup (secrets : Option String) : StartupResult :=
  match secrets with
  | none =>
      .halted "Google API key not found in Streamlit Secrets! Please add a secret named 'API_KEY' with your key."
  | some api_key =>
      if api_key = "" then
        .halted "Google API key not found in Streamlit Secrets! Please add it to the Secrets section of your app."
      else
        .configured api_key

/-- The whole script: the startup section runs first; `st.stop()` in a
halted startup prevents the rest of the page, so the submit handler runs
only in the configured case. -/
def runApp (secrets : Option String) (endpoint : Endpoint)
    (uploaded_file : Option UploadedFile) (language_code : String) :
    StartupResult × Option (Outcome × List (List GenPart)) :=
  match startup secrets with
  | .halted m => (.halted m, none)
  | .configured k => (.configured k, some (handleSubmit endpoint uploaded_file language_code))

/-- A session of consecutive submissions against the same endpoint; outcomes
and the concatenated call trace. -/
def runSession (endpoint : Endpoint)
    (subs : List (Option UploadedFile × String)) :
    List Outcome × List (List GenPart) :=
  match subs with
  | [] => ([], [])
  | (u, lang) :: rest =>
      let r := handleSubmit endpoint u lang
      let rs := runSession endpoint rest
      (r.1 :: rs.1, r.2 ++ rs.2)

/-- The instruction text sent in the first endpoint call of a submission, if
any call was made. -/
def instructionSent (r : Outcome × List (List GenPart)) : Option String :=
  match r.2 with
  | (GenPart.text s :: _) :: _ => some s
  | _ => none

/-- Modelled from the spec: the repository's second app variant, the one
without a language selector, is not under src/; spec section 4.2 unifies the
two variants into one builder with an optional language hint. With a hint
the builder is the source's `localized_prompt` (src/app.py line 43) applied
to the language code of the selection (lines 88-89); with no hint the spec
says the template passes through unchanged. -/
def buildInstruction (baseTemplate : String) : Option Language → String
  | some l => localized_prompt baseTemplate (supportedLanguages l)
  | none => baseTemplate

/-- Modelled from the spec: the `UploadedImage` invariant of spec section 3,
"bytes non-empty and mimeType one of a small allow-list \x7bjpeg, png\x7d". -/
def mimeAllowList : List String := ["image/jpeg", "image/png"]

/-- Modelled from the spec: the invariant predicate on a constructed image
part. -/
def imageInvariant (p : ImagePart) : Prop :=
  p.data ≠ [] ∧ p.mime_type ∈ mimeAllowList

instance (p : ImagePart) : Decidable (imageInvariant p) := by
  unfold imageInvariant; infer_instance

/-- Prefix test used to state the "starts with" properties of the spec:
`pre` is a prefix of `s`, checked on the character lists. -/
def strStartsWith (s pre : String) : Bool :=
  pre.toList.isPrefixOf s.toList

/-- A simulated endpoint that always answers with the text "OK". -/
def okEndpoint : Endpoint := fun _ => .ok "OK"

/-- A simulated endpoint that always throws a service exception. -/
def failEndpoint : Endpoint := fun _ => .error (.other "network down")

/-- A concrete valid JPEG upload (JPEG magic bytes, declared JPEG MIME
type). -/
def jpegUpload : UploadedFile := ⟨"image/jpeg", [255, 216, 255, 224]⟩

/-- A concrete upload violating the spec's invariant: empty bytes and a
MIME type outside the allow-list. -/
def badUpload : UploadedFile := ⟨"text/plain", []⟩

/-- Helper: a submission with a present upload makes exactly the one
endpoint call `[localized_prompt, image[0]]`, whatever the endpoint
answers. -/
theorem handleSubmit_trace (e : Endpoint) (f : UploadedFile) (lang : String) :
    (handleSubmit e (some f) lang).2 =
      [[GenPart.text (localized_prompt input_prompt lang),
        GenPart.image ⟨f.type, f.data⟩]] := by
  cases h : e [GenPart.text (localized_prompt input_prompt lang),
      GenPart.image ⟨f.type, f.data⟩] <;>
    simp [handleSubmit, get_image_content, get_gemini_response, h]

/-- Helper: the instruction text sent by a submission with a present upload
is the localized prompt of the fixed template and the language code. -/
theorem instructionSent_handleSubmit (e : Endpoint) (f : UploadedFile) (lang : String) :
    instructionSent (handleSubmit e (some f) lang) =
      some (localized_prompt input_prompt lang) := by
  unfold instructionSent
  rw [handleSubmit_trace]

/-- C1 counterexample: at base template "T" with the French hint, the built
instruction is "Language: fr\n\nT"; it does not start with the language
name "French" followed immediately by the template, and not even with
"Language: French" alone. -/
theorem c1_counterexample :
    strStartsWith (buildInstruction "T" (some Language.french))
      ("Language: " ++ Language.name Language.french ++ "T") = false ∧
    strStartsWith (buildInstruction "T" (some Language.french))
      ("Language: " ++ Language.name Language.french) = false := by
  decide

/-- C1 amended: with a language hint the built instruction is
`Language: <code>` (the language's two-letter code, not its name) followed
by a blank line and then the unmodified base template; with no hint the
output is the unmodified base template; and in an actual submission the
instruction sent is exactly the builder's output for the fixed template. -/
theorem c1_amended (t : String) (l : Language) (e : Endpoint) (f : UploadedFile) :
    buildInstruction t (some l) =
      "Language: " ++ supportedLanguages l ++ "\n\n" ++ t ∧
    buildInstruction t none = t ∧
    instructionSent (handleSubmit e (some f) (supportedLanguages l)) =
      some (buildInstruction input_prompt (some l)) :=
  ⟨rfl, rfl, instructionSent_handleSubmit e f (supportedLanguages l)⟩

/-- C2 counterexample: with an endpoint returning "OK" and a valid JPEG
upload under the "French" selection, the critique text is "OK" but the
instruction sent does not begin with "Language: French" (it begins with
"Language: fr"). -/
theorem c2_counterexample :
    (handleSubmit okEndpoint (some jpegUpload)
        (supportedLanguages Language.french)).1 = Outcome.critique "OK" ∧
    (instructionSent (handleSubmit okEndpoint (some jpegUpload)
        (supportedLanguages Language.french))).map
      (fun s => strStartsWith s "Language: French") = some false := by
  refine ⟨rfl, ?_⟩
  rw [instructionSent_handleSubmit]
  decide

/-- C2 amended: if the endpoint returns the text "OK", submitting a valid
JPEG under the "French" selection yields the critique "OK", and the
instruction sent begins with "Language: fr" (the code of French, not its
name). -/
theorem c2_amended (e : Endpoint) (f : UploadedFile)
    (hmime : f.type = "image/jpeg")
    (hok : e [GenPart.text (localized_prompt input_prompt (supportedLanguages Language.french)),
              GenPart.image ⟨f.type, f.data⟩] = Except.ok "OK") :
    (handleSubmit e (some f) (supportedLanguages Language.french)).1 =
      Outcome.critique "OK" ∧
    (instructionSent (handleSubmit e (some f) (supportedLanguages Language.french))).map
      (fun s => strStartsWith s ("Language: " ++ supportedLanguages Language.french)) =
      some true := by
  refine ⟨?_, ?_⟩
  · simp [handleSubmit, get_image_content, get_gemini_response, hok]
  · rw [instructionSent_handleSubmit]
    decide

/-- C2 witness: the amended theorem applied to the "OK" endpoint and the
concrete JPEG upload. -/
theorem c2_witness :
    (handleSubmit okEndpoint (some jpegUpload)
        (supportedLanguages Language.french)).1 = Outcome.critique "OK" ∧
    (instructionSent (handleSubmit okEndpoint (some jpegUpload)
        (supportedLanguages Language.french))).map
      (fun s => strStartsWith s ("Language: " ++ supportedLanguages Language.french)) =
      some true :=
  c2_amended okEndpoint jpegUpload rfl rfl

/-- C3 confirmed: a submission with no file selected yields exactly the
FileNotFoundError outcome with the message "File not uploaded", whatever
the endpoint and language; no endpoint call is made; and this outcome kind
is distinguishable from the service-error kind and from a critique. -/
theorem c3_missing_input (e : Endpoint) (lang : String) :
    handleSubmit e none lang = (Outcome.fileError "File not uploaded", []) ∧
    (∀ m m', Outcome.fileError m ≠ Outcome.genericError m') ∧
    (∀ m t, Outcome.fileError m ≠ Outcome.critique t) :=
  ⟨rfl, fun _ _ h => Outcome.noConfusion h, fun _ _ h => Outcome.noConfusion h⟩

/-- C4 confirmed: for every present upload with bytes b and declared MIME
type m, the intake step returns exactly one image part holding those exact
bytes and that exact MIME type, and the request sent to the endpoint
carries that part unmodified. -/
theorem c4_roundtrip (b : List Nat) (m : String) (e : Endpoint) (lang : String) :
    get_image_content (some ⟨m, b⟩) = Except.ok [⟨m, b⟩] ∧
    (handleSubmit e (some ⟨m, b⟩) lang).2 =
      [[GenPart.text (localized_prompt input_prompt lang), GenPart.image ⟨m, b⟩]] :=
  ⟨rfl, handleSubmit_trace e ⟨m, b⟩ lang⟩

/-- C5 confirmed: when the endpoint throws a service exception with message
msg, the submission yields the generic error outcome carrying that message
(never a critique), and exactly one endpoint call was made (no retry). -/
theorem c5_service_error (e : Endpoint) (f : UploadedFile) (lang msg : String)
    (h : e [GenPart.text (localized_prompt input_prompt lang),
            GenPart.image ⟨f.type, f.data⟩] = Except.error (PyExc.other msg)) :
    handleSubmit e (some f) lang =
      (Outcome.genericError ("An error occurred: " ++ msg),
       [[GenPart.text (localized_prompt input_prompt lang),
         GenPart.image ⟨f.type, f.data⟩]]) ∧
    ∀ t, (handleSubmit e (some f) lang).1 ≠ Outcome.critique t := by
  refine ⟨?_, ?_⟩
  · simp [handleSubmit, get_image_content, get_gemini_response, handleException, h]
  · intro t
    simp [handleSubmit, get_image_content, get_gemini_response, handleException, h]

/-- C5 witness: the theorem applied to the always-throwing endpoint and the
concrete JPEG upload. -/
theorem c5_witness :
    handleSubmit failEndpoint (some jpegUpload) "fr" =
      (Outcome.genericError ("An error occurred: " ++ "network down"),
       [[GenPart.text (localized_prompt input_prompt "fr"),
         GenPart.image ⟨jpegUpload.type, jpegUpload.data⟩]]) ∧
    ∀ t, (handleSubmit failEndpoint (some jpegUpload) "fr").1 ≠ Outcome.critique t :=
  c5_service_error failEndpoint jpegUpload "fr" "network down" rfl

/-- C6 confirmed: with an absent or empty API_KEY secret, startup halts the
interface with a diagnostic naming the missing Google API key, the submit
handler never runs, and no endpoint call is attempted. -/
theorem c6_startup_halt (s : Option String) (e : Endpoint)
    (u : Option UploadedFile) (lang : String)
    (h : s = none ∨ s = some "") :
    ∃ m, runApp s e u lang = (StartupResult.halted m, none) ∧
      strStartsWith m "Google API key not found" = true := by
  rcases h with h | h <;> subst h <;> exact ⟨_, rfl, by decide⟩

/-- C6 witness: the theorem applied to the absent secret with concrete
endpoint, upload and language. -/
theorem c6_witness :
    ∃ m, runApp none okEndpoint none "en" = (StartupResult.halted m, none) ∧
      strStartsWith m "Google API key not found" = true :=
  c6_startup_halt none okEndpoint none "en" (Or.inl rfl)

/-- C7 confirmed: a submission with a present upload makes exactly one
endpoint call, and submitting the same upload twice in succession makes two
independent calls with identical payload content. -/
theorem c7_no_caching (e : Endpoint) (f : UploadedFile) (lang : String) :
    ∃ req, (handleSubmit e (some f) lang).2 = [req] ∧
      (runSession e [(some f, lang), (some f, lang)]).2 = [req, req] := by
  refine ⟨[GenPart.text (localized_prompt input_prompt lang),
      GenPart.image ⟨f.type, f.data⟩], handleSubmit_trace e f lang, ?_⟩
  simp [runSession, handleSubmit_trace]

/-- C8 counterexample: the intake step constructs an image part from an
upload with empty bytes and the MIME type "text/plain"; the constructed
part violates the spec's invariant (non-empty bytes, MIME type in the
jpeg/png allow-list), so the intake step enforces no such invariant. -/
theorem c8_counterexample :
    get_image_content (some badUpload) = Except.ok [⟨"text/plain", []⟩] ∧
    ¬ imageInvariant ⟨"text/plain", []⟩ :=
  ⟨rfl, by decide⟩

/-- C8 amended: the intake step passes the boundary-supplied bytes and MIME
type through unchanged and enforces no validation itself; whenever the
boundary supplies non-empty bytes and an allow-listed MIME type (as the
upload widget's jpg/jpeg/png extension filter is intended to ensure), every
constructed image part satisfies the invariant. -/
theorem c8_invariant (f : UploadedFile)
    (hb : f.data ≠ []) (hm : f.type ∈ mimeAllowList) :
    ∃ parts, get_image_content (some f) = Except.ok parts ∧
      ∀ p ∈ parts, imageInvariant p := by
  refine ⟨[⟨f.type, f.data⟩], rfl, ?_⟩
  intro p hp
  rw [List.mem_singleton] at hp
  subst hp
  exact ⟨hb, hm⟩

/-- C8 witness: the amended theorem applied to the concrete JPEG upload. -/
theorem c8_witness :
    ∃ parts, get_image_content (some jpegUpload) = Except.ok parts ∧
      ∀ p ∈ parts, imageInvariant p :=
  c8_invariant jpegUpload (by decide) (by decide)

/-- C9 confirmed: the instruction building step is a pure function of the
template and the language code: the instruction sent by a submission equals
the localized prompt of those two inputs alone, so it is identical across
two runs and independent of the endpoint and of the uploaded image. -/
theorem c9_pure_builder (e₁ e₂ : Endpoint) (f₁ f₂ : UploadedFile) (lang : String) :
    instructionSent (handleSubmit e₁ (some f₁) lang) =
      some (localized_prompt input_prompt lang) ∧
    instructionSent (handleSubmit e₁ (some f₁) lang) =
      instructionSent (handleSubmit e₂ (some f₂) lang) :=
  ⟨instructionSent_handleSubmit e₁ f₁ lang,
   (instructionSent_handleSubmit e₁ f₁ lang).trans
     (instructionSent_handleSubmit e₂ f₂ lang).symm⟩

/-- C10 confirmed: the intake step returns a list of exactly one image
part; the request sent to the model has exactly two parts, the instruction
text and the head of that list; and any elements beyond the head are
ignored (two lists with the same head give the same call). -/
theorem c10_single_part (f : UploadedFile) (e : Endpoint) (prompt lang : String)
    (p : ImagePart) (rest rest' : List ImagePart) :
    get_image_content (some f) = Except.ok [⟨f.type, f.data⟩] ∧
    (get_gemini_response e prompt (p :: rest) lang).2 =
      [[GenPart.text (localized_prompt prompt lang), GenPart.image p]] ∧
    get_gemini_response e prompt (p :: rest) lang =
      get_gemini_response e prompt (p :: rest') lang :=
  ⟨rfl, rfl, rfl⟩

end PhotoCritique
